import Mathlib

/-!
Verification of the AB-TEST-TOOL simulation-and-inference engine.

The repository ships `src/plots.py` (plotting layer, containing the power
and CDF computations) and `streamlit_app.py` (the dashboard caller).  The
engine modules it imports (`src.utils`, `src.datagen`, `src.testdesign`,
`src.tests`) are not part of the source tree, so those components are
modelled from the specification; everything taken from `src/plots.py` is a
direct embedding of the code.

Numeric values (p-values, CTRs, probabilities) are modelled as rationals.
-/

namespace ABTest

/-- Modelled from the spec: the Empirical CDF Utility (`empirical_cdf` in
the missing `src/utils.py`).  Input is a one-dimensional numeric sequence
of length n; output is the pair of the input sorted ascending and the
cumulative probabilities rank / n with rank starting at 1. -/
def empirical_cdf (xs : List ℚ) : List ℚ × List ℚ :=
  (xs.insertionSort (· ≤ ·),
   (List.range xs.length).map (fun (i : ℕ) => ((i : ℚ) + 1) / (xs.length : ℚ)))

/-- Embedding of the power computation in `plot_power`
(`src/plots.py` lines 265-268): `np.mean(test_data['p_vals'] < alpha)`,
i.e. the count of p-values strictly below `alpha` divided by the array
length. -/
def plot_power_value (p_vals : List ℚ) (alpha : ℚ) : ℚ :=
  ((p_vals.countP (fun p => decide (p < alpha)) : ℚ)) / (p_vals.length : ℚ)

/-- Embedding of the `powers` dictionary built by `plot_power`
(`src/plots.py` lines 265-268): one power per test name, computed from that
test's `p_vals` array.  A dictionary of test results is modelled as an
association list from test name to p-value array. -/
def plot_power_powers (tests_results : List (String × List ℚ)) (alpha : ℚ) :
    List (String × ℚ) :=
  tests_results.map (fun t => (t.1, plot_power_value t.2 alpha))

/-- The fraction of a p-value array strictly below a threshold, written
from the spec's words ("power = fraction of a test's p-value array strictly
below α"): number of entries strictly below, over the total count. -/
def fractionStrictlyBelow (p_vals : List ℚ) (alpha : ℚ) : ℚ :=
  ((p_vals.filter (fun p => decide (p < alpha))).length : ℚ) / (p_vals.length : ℚ)

/-- Embedding of the curve data displayed by `plot_p_cdf`
(`src/plots.py` lines 174-178): it computes
`p_vals_sorted, probs = empirical_cdf(p_vals)` and plots exactly that pair. -/
def plot_p_cdf_curve (p_vals : List ℚ) : List ℚ × List ℚ :=
  let sp := empirical_cdf p_vals
  (sp.1, sp.2)

/-- Embedding of the curves displayed by `plot_p_cdf_all`
(`src/plots.py` lines 222-224): for each test name in the dictionary it
computes `empirical_cdf(data['p_vals'])` and plots that pair. -/
def plot_p_cdf_all_curves (p_vals_dict : List (String × List ℚ)) :
    List (String × (List ℚ × List ℚ)) :=
  p_vals_dict.map (fun t => (t.1, plot_p_cdf_curve t.2))

end ABTest

namespace ABTest

/-- C1: for every mapping from test name to a p-value array and every
threshold `alpha`, the power `plot_power` computes for each test is the
fraction of that test's p-value array strictly below `alpha`; an array
consisting only of values equal to `alpha` yields power 0, so values equal
to `alpha` never count as rejections. -/
theorem plot_power_is_fraction_strictly_below
    (tests_results : List (String × List ℚ)) (alpha : ℚ) :
    plot_power_powers tests_results alpha =
      tests_results.map (fun t => (t.1, fractionStrictlyBelow t.2 alpha)) ∧
    (∀ n : ℕ, plot_power_value (List.replicate n alpha) alpha = 0) := by
  constructor
  · unfold plot_power_powers plot_power_value fractionStrictlyBelow
    simp [List.countP_eq_length_filter]
  · intro n
    unfold plot_power_value
    simp [List.countP_eq_length_filter, List.filter_replicate]

/-- C3: the p-value CDF displayed by `plot_p_cdf` is exactly
`empirical_cdf` applied to the p-value array, and `plot_p_cdf_all` plots,
for every test in the dictionary, exactly `empirical_cdf` of that test's
`p_vals` array, with no other transformation of the values. -/
theorem plot_p_cdf_displays_empirical_cdf
    (p_vals : List ℚ) (p_vals_dict : List (String × List ℚ)) :
    plot_p_cdf_curve p_vals = empirical_cdf p_vals ∧
    plot_p_cdf_all_curves p_vals_dict =
      p_vals_dict.map (fun t => (t.1, empirical_cdf t.2)) := by
  constructor
  · rfl
  · unfold plot_p_cdf_all_curves plot_p_cdf_curve
    simp

end ABTest

namespace ABTest

/-- The Empirical CDF Utility contract from the spec, as a predicate on the
input sequence: the output is a pair of equal-length sequences, the first
the input sorted ascending (a sorted permutation; the identity on
already-sorted input), the second the cumulative probabilities
rank / n with rank starting at 1, every one of them in (0, 1]. -/
def ecdf_contract (xs : List ℚ) : Prop :=
  (empirical_cdf xs).1.length = xs.length ∧
  (empirical_cdf xs).2.length = xs.length ∧
  (empirical_cdf xs).1.Perm xs ∧
  (empirical_cdf xs).1.Sorted (· ≤ ·) ∧
  (∀ i (hi : i < (empirical_cdf xs).2.length),
     (empirical_cdf xs).2.get ⟨i, hi⟩ = ((i : ℚ) + 1) / (xs.length : ℚ) ∧
     0 < (empirical_cdf xs).2.get ⟨i, hi⟩ ∧ (empirical_cdf xs).2.get ⟨i, hi⟩ ≤ 1) ∧
  (xs.Sorted (· ≤ ·) → (empirical_cdf xs).1 = xs)

/-- C2: for every numeric sequence of length n ≥ 1, `empirical_cdf` returns
the input sorted ascending together with cumulative probabilities rank / n
(rank starting at 1), equal in length to the input, each probability lying
in (0, 1]; on an already-sorted ascending input the sorted component is the
input itself, so the probabilities are exactly 1/n, 2/n, ..., 1. -/
theorem empirical_cdf_correct (xs : List ℚ) (h : 1 ≤ xs.length) :
    ecdf_contract xs := by
  have hn : (0 : ℚ) < (xs.length : ℚ) := by exact_mod_cast h
  have hlen2 : (empirical_cdf xs).2.length = xs.length := by
    rw [empirical_cdf, List.length_map, List.length_range]
  refine ⟨List.length_insertionSort _ _, hlen2,
    List.perm_insertionSort _ _, List.sorted_insertionSort _ _, ?_, ?_⟩
  · intro i hi
    have hi' : i < xs.length := hlen2 ▸ hi
    have he : (empirical_cdf xs).2.get ⟨i, hi⟩ = ((i : ℚ) + 1) / (xs.length : ℚ) := by
      have hh : i < ((List.range xs.length).map
          (fun (j : ℕ) => ((j : ℚ) + 1) / (xs.length : ℚ))).length := by
        rwa [List.length_map, List.length_range]
      show ((List.range xs.length).map
        (fun (j : ℕ) => ((j : ℚ) + 1) / (xs.length : ℚ))).get ⟨i, hh⟩ = _
      rw [List.get_eq_getElem, List.getElem_map, List.getElem_range]
    refine ⟨he, ?_, ?_⟩
    · rw [he]; positivity
    · rw [he, div_le_one hn]
      have : (i : ℚ) + 1 ≤ (xs.length : ℚ) := by exact_mod_cast hi'
      linarith
  · intro hs
    exact hs.insertionSort_eq

/-- Witness for C2: the contract holds at the concrete input
[2, 1/2, 3]. -/
theorem empirical_cdf_correct_witness :
    1 ≤ ([2, 1/2, 3] : List ℚ).length ∧ ecdf_contract [2, 1/2, 3] :=
  ⟨by decide, empirical_cdf_correct [2, 1/2, 3] (by decide)⟩

end ABTest

namespace ABTest

/-- Modelled from the spec: the Experiment Designer
(`design_binomial_experiment` in the missing `src/testdesign.py`).
n = ceil[(z_{1-alpha/2} + z_{1-beta})^2 * (p_0(1-p_0) + p_1(1-p_1)) /
(p_1 - p_0)^2] with p_1 = p_0 + mde (the spec's primary convention).
The standard normal quantile function is transcendental, so it is taken
as the explicit parameter `z`, with `z q` standing for the q-quantile of
the standard normal distribution. -/
def design_binomial_experiment (z : ℚ → ℚ) (mde p_0 alpha beta : ℚ) : ℤ :=
  let p_1 := p_0 + mde
  ⌈((z (1 - alpha / 2) + z (1 - beta)) ^ 2 *
      (p_0 * (1 - p_0) + p_1 * (1 - p_1))) / (p_1 - p_0) ^ 2⌉

/-- The spec's closed-form sample-size expression before rounding, written
from the spec's words for comparison with `design_binomial_experiment`. -/
def design_formula (z : ℚ → ℚ) (mde p_0 alpha beta : ℚ) : ℚ :=
  ((z (1 - alpha / 2) + z (1 - beta)) ^ 2 *
      (p_0 * (1 - p_0) + (p_0 + mde) * (1 - (p_0 + mde)))) / ((p_0 + mde) - p_0) ^ 2

lemma design_eq_ceil (z : ℚ → ℚ) (mde p_0 alpha beta : ℚ) :
    design_binomial_experiment z mde p_0 alpha beta =
      ⌈design_formula z mde p_0 alpha beta⌉ := rfl

lemma design_formula_pos (z : ℚ → ℚ) (mde p_0 alpha beta : ℚ)
    (hp0 : 0 < p_0) (hmde : 0 < mde) (hp1 : p_0 + mde < 1)
    (hzpos : 0 < z (1 - alpha / 2) + z (1 - beta)) :
    0 < design_formula z mde p_0 alpha beta := by
  have hs : 0 < (z (1 - alpha / 2) + z (1 - beta)) ^ 2 := pow_pos hzpos 2
  have hN : 0 < p_0 * (1 - p_0) + (p_0 + mde) * (1 - (p_0 + mde)) := by nlinarith
  have hD : 0 < ((p_0 + mde) - p_0) ^ 2 := by
    have h : (p_0 + mde) - p_0 = mde := by ring
    rw [h]; positivity
  exact div_pos (mul_pos hs hN) hD

/-- The summed variance term of the two-proportion formula, divided by the
squared effect, is antitone in the effect size d. -/
lemma variance_over_effect_antitone (u d d' : ℚ)
    (hu : 0 < u) (hd : 0 < d) (hdd : d ≤ d') (hp1 : u + d' < 1) :
    (u * (1 - u) + (u + d') * (1 - (u + d'))) / ((u + d') - u) ^ 2 ≤
    (u * (1 - u) + (u + d) * (1 - (u + d))) / ((u + d) - u) ^ 2 := by
  have hd' : 0 < d' := lt_of_lt_of_le hd hdd
  have hu1 : 0 < 1 - u := by linarith
  have e1 : (u + d') - u = d' := by ring
  have e2 : (u + d) - u = d := by ring
  rw [e1, e2, div_le_div_iff₀ (by positivity) (by positivity)]
  have hbr : 0 ≤ 2 * u * (1 - u) * (d' + d) + d * d' * (1 - 2 * u) := by
    rcases le_or_lt u (1 / 2) with hc | hc
    · have h1 : 0 ≤ 2 * u * (1 - u) * (d' + d) := by
        apply mul_nonneg (by positivity) (by linarith)
      have h2 : 0 ≤ d * d' * (1 - 2 * u) := by
        apply mul_nonneg (by positivity); linarith
      linarith
    · have hdu : d ≤ 1 - u := by linarith
      have s1 : d * d' * (2 * u - 1) ≤ (1 - u) * d' * (2 * u - 1) := by
        apply mul_le_mul_of_nonneg_right _ (by linarith)
        apply mul_le_mul_of_nonneg_right hdu (le_of_lt hd')
      have s2 : (1 - u) * d' * (2 * u - 1) ≤ (1 - u) * d' * (2 * u) := by
        apply mul_le_mul_of_nonneg_left (by linarith) (by positivity)
      have s3 : (1 - u) * d' * (2 * u) ≤ 2 * u * (1 - u) * (d' + d) := by
        nlinarith [mul_pos hu hu1]
      nlinarith
  nlinarith [mul_nonneg (sub_nonneg.mpr hdd) hbr, mul_pos hd hd']

/-- The Experiment Designer contract of C4: the result is the ceiling of
the closed-form expression (it lies in [formula, formula + 1)), it is a
positive integer, and identical inputs give the identical integer. -/
def design_contract (z : ℚ → ℚ) (mde p_0 alpha beta : ℚ) : Prop :=
  design_formula z mde p_0 alpha beta ≤
      (design_binomial_experiment z mde p_0 alpha beta : ℚ) ∧
  (design_binomial_experiment z mde p_0 alpha beta : ℚ) <
      design_formula z mde p_0 alpha beta + 1 ∧
  0 < design_binomial_experiment z mde p_0 alpha beta ∧
  (∀ mde2 p2 a2 b2 : ℚ, mde2 = mde → p2 = p_0 → a2 = alpha → b2 = beta →
     design_binomial_experiment z mde2 p2 a2 b2 =
       design_binomial_experiment z mde p_0 alpha beta)

/-- C4: for all valid inputs, the Experiment Designer returns the ceiling
of (z_{1-alpha/2} + z_{1-beta})^2 (p_0(1-p_0) + p_1(1-p_1)) / (p_1-p_0)^2
as a positive integer, and re-running it with identical inputs returns the
identical integer (pure and deterministic). -/
theorem design_binomial_experiment_correct (z : ℚ → ℚ) (mde p_0 alpha beta : ℚ)
    (hp0 : 0 < p_0) (hp0' : p_0 < 1) (hmde : 0 < mde) (hp1 : p_0 + mde < 1)
    (ha : 0 < alpha) (ha' : alpha < 1) (hb : 0 < beta) (hb' : beta < 1)
    (hzpos : 0 < z (1 - alpha / 2) + z (1 - beta)) :
    design_contract z mde p_0 alpha beta := by
  refine ⟨?_, ?_, ?_, ?_⟩
  · rw [design_eq_ceil]; exact Int.le_ceil _
  · rw [design_eq_ceil]; exact Int.ceil_lt_add_one _
  · rw [design_eq_ceil]
    exact Int.ceil_pos.mpr (design_formula_pos z mde p_0 alpha beta hp0 hmde hp1 hzpos)
  · intro mde2 p2 a2 b2 h1 h2 h3 h4
    rw [h1, h2, h3, h4]

/-- Witness for C4: the contract holds at a concrete instantiation with
the quantile map taken as the identity, mde = 1/250, p_0 = 1/50,
alpha = 1/20, beta = 1/5. -/
theorem design_binomial_experiment_correct_witness :
    (0 < (1 / 50 : ℚ) ∧ (1 / 50 : ℚ) < 1 ∧ 0 < (1 / 250 : ℚ) ∧
     (1 / 50 : ℚ) + 1 / 250 < 1 ∧ 0 < (1 / 20 : ℚ) ∧ (1 / 20 : ℚ) < 1 ∧
     0 < (1 / 5 : ℚ) ∧ (1 / 5 : ℚ) < 1 ∧
     0 < id (1 - (1 / 20 : ℚ) / 2) + id (1 - (1 / 5 : ℚ))) ∧
    design_contract id (1 / 250) (1 / 50) (1 / 20) (1 / 5) :=
  ⟨by norm_num,
   design_binomial_experiment_correct id (1 / 250) (1 / 50) (1 / 20) (1 / 5)
     (by norm_num) (by norm_num) (by norm_num) (by norm_num) (by norm_num)
     (by norm_num) (by norm_num) (by norm_num) (by norm_num)⟩

end ABTest

namespace ABTest

/-- The Experiment Designer monotonicity contract of C5: positivity, plus
sample size antitone in mde and antitone in each of alpha and beta when
those shrink (stricter error targets never decrease it). -/
def design_mono_contract (z : ℚ → ℚ) (mde p_0 alpha beta : ℚ) : Prop :=
  0 < design_binomial_experiment z mde p_0 alpha beta ∧
  (∀ mde2 : ℚ, mde ≤ mde2 → p_0 + mde2 < 1 →
     design_binomial_experiment z mde2 p_0 alpha beta ≤
       design_binomial_experiment z mde p_0 alpha beta) ∧
  (∀ alpha2 : ℚ, alpha2 ≤ alpha →
     design_binomial_experiment z mde p_0 alpha beta ≤
       design_binomial_experiment z mde p_0 alpha2 beta) ∧
  (∀ beta2 : ℚ, beta2 ≤ beta →
     design_binomial_experiment z mde p_0 alpha beta ≤
       design_binomial_experiment z mde p_0 alpha beta2)

/-- C5: for valid parameters and a monotone quantile map with positive
quantile sum, the Experiment Designer returns a positive integer, a larger
mde never increases the required sample size, and a smaller alpha or a
smaller beta never decreases it. -/
theorem design_binomial_experiment_monotone (z : ℚ → ℚ) (mde p_0 alpha beta : ℚ)
    (hz : Monotone z)
    (hp0 : 0 < p_0) (hmde : 0 < mde) (hp1 : p_0 + mde < 1)
    (hzpos : 0 < z (1 - alpha / 2) + z (1 - beta)) :
    design_mono_contract z mde p_0 alpha beta := by
  have hD : (0 : ℚ) < ((p_0 + mde) - p_0) ^ 2 := by
    have h : (p_0 + mde) - p_0 = mde := by ring
    rw [h]; positivity
  have hN : 0 ≤ p_0 * (1 - p_0) + (p_0 + mde) * (1 - (p_0 + mde)) := by nlinarith
  refine ⟨?_, ?_, ?_, ?_⟩
  · rw [design_eq_ceil]
    exact Int.ceil_pos.mpr (design_formula_pos z mde p_0 alpha beta hp0 hmde hp1 hzpos)
  · intro mde2 hle hlt
    rw [design_eq_ceil, design_eq_ceil]
    apply Int.ceil_le_ceil
    unfold design_formula
    rw [mul_div_assoc, mul_div_assoc]
    apply mul_le_mul_of_nonneg_left _ (by positivity)
    exact variance_over_effect_antitone p_0 mde mde2 hp0 hmde hle hlt
  · intro alpha2 hle
    rw [design_eq_ceil, design_eq_ceil]
    apply Int.ceil_le_ceil
    unfold design_formula
    apply div_le_div_of_nonneg_right _ (le_of_lt hD)
    apply mul_le_mul_of_nonneg_right _ hN
    have hs : z (1 - alpha / 2) + z (1 - beta) ≤ z (1 - alpha2 / 2) + z (1 - beta) := by
      have := hz (show 1 - alpha / 2 ≤ 1 - alpha2 / 2 by linarith)
      linarith
    exact pow_le_pow_left₀ (le_of_lt hzpos) hs 2
  · intro beta2 hle
    rw [design_eq_ceil, design_eq_ceil]
    apply Int.ceil_le_ceil
    unfold design_formula
    apply div_le_div_of_nonneg_right _ (le_of_lt hD)
    apply mul_le_mul_of_nonneg_right _ hN
    have hs : z (1 - alpha / 2) + z (1 - beta) ≤ z (1 - alpha / 2) + z (1 - beta2) := by
      have := hz (show 1 - beta ≤ 1 - beta2 by linarith)
      linarith
    exact pow_le_pow_left₀ (le_of_lt hzpos) hs 2

/-- Witness for C5: the monotonicity contract holds with the quantile map
taken as the identity, mde = 1/250, p_0 = 1/50, alpha = 1/20, beta = 1/5. -/
theorem design_binomial_experiment_monotone_witness :
    (Monotone (id : ℚ → ℚ) ∧ 0 < (1 / 50 : ℚ) ∧ 0 < (1 / 250 : ℚ) ∧
     (1 / 50 : ℚ) + 1 / 250 < 1 ∧
     0 < id (1 - (1 / 20 : ℚ) / 2) + id (1 - (1 / 5 : ℚ))) ∧
    design_mono_contract id (1 / 250) (1 / 50) (1 / 20) (1 / 5) :=
  ⟨⟨monotone_id, by norm_num, by norm_num, by norm_num, by norm_num⟩,
   design_binomial_experiment_monotone id (1 / 250) (1 / 50) (1 / 20) (1 / 5)
     monotone_id (by norm_num) (by norm_num) (by norm_num) (by norm_num)⟩

end ABTest

namespace ABTest

/-- Modelled from the spec: the Data Generator's construction parameters
(`ABTestGenerator` in the missing `src/datagen.py`): baseline CTR, relative
uplift, Beta concentration parameter and view-count skew, fixed per
generator instance. -/
structure ABTestGenerator where
  base_ctr : ℚ
  uplift : ℚ
  ctr_beta : ℚ
  skew : ℚ

/-- Modelled from the spec: the treatment group's true mean CTR,
base_ctr * (1 + uplift). -/
def ABTestGenerator.treatment_ctr (g : ABTestGenerator) : ℚ :=
  g.base_ctr * (1 + g.uplift)

/-- Modelled from the spec: the generator's random source, made explicit.
For group, trial and user indices it yields the drawn per-user view count
(from the skew-controlled count distribution), the drawn per-user latent
click rate (from the Beta distribution around the group mean), and one
uniform draw per view used to decide that view's click outcome.  The
distributional content of the missing `src/datagen.py` lives in these
draws; the structural combination of them is what the claims constrain. -/
structure RandSource where
  views : ℕ → ℕ → ℕ → ℕ
  rate : ℕ → ℕ → ℕ → ℚ
  unif : ℕ → ℕ → ℕ → ℕ → ℚ

/-- Modelled from the spec: a Binomial outcome with the given number of
trials and success probability `rate`, realised by counting the uniform
draws that fall below `rate` — one Bernoulli comparison per view. -/
def binomial_draw (rate : ℚ) (unif : ℕ → ℚ) (trials : ℕ) : ℕ :=
  ((List.range trials).filter (fun v => decide (unif v < rate))).length

/-- Per-user view counts of one group in one trial: n draws from the
configured count distribution. -/
def gen_group_views (src : RandSource) (grp t n : ℕ) : List ℕ :=
  (List.range n).map (fun u => src.views grp t u)

/-- Per-user click counts of one group in one trial: for each user a
Binomial draw with trials equal to that user's view count and success
probability equal to that user's latent rate. -/
def gen_group_clicks (src : RandSource) (grp t n : ℕ) : List ℕ :=
  (List.range n).map
    (fun u => binomial_draw (src.rate grp t u) (src.unif grp t u) (src.views grp t u))

/-- Aggregate trial-level CTR: total clicks over total views; the
zero-views edge case is defined as 0 (rational division by zero), handled
without raising, as the spec requires. -/
def aggregate_ctr (clicks views : List ℕ) : ℚ :=
  (clicks.sum : ℚ) / (views.sum : ℚ)

/-- The Experiment Batch structure of the spec's external interface:
exactly the fields views_0, views_1, clicks_0, clicks_1, ctrs_0, ctrs_1,
one entry per trial. -/
structure ExperimentBatch where
  views_0 : List (List ℕ)
  views_1 : List (List ℕ)
  clicks_0 : List (List ℕ)
  clicks_1 : List (List ℕ)
  ctrs_0 : List ℚ
  ctrs_1 : List ℚ

/-- Modelled from the spec: the simulation work of `generate_n_experiment`
— N independent trials, each with n users per group; the generator's
distribution parameters act through the random source `src`. -/
def ABTestGenerator.build_batch (g : ABTestGenerator) (src : RandSource)
    (n N : ℕ) : ExperimentBatch :=
  { views_0 := (List.range N).map (fun t => gen_group_views src 0 t n)
    views_1 := (List.range N).map (fun t => gen_group_views src 1 t n)
    clicks_0 := (List.range N).map (fun t => gen_group_clicks src 0 t n)
    clicks_1 := (List.range N).map (fun t => gen_group_clicks src 1 t n)
    ctrs_0 := (List.range N).map
      (fun t => aggregate_ctr (gen_group_clicks src 0 t n) (gen_group_views src 0 t n))
    ctrs_1 := (List.range N).map
      (fun t => aggregate_ctr (gen_group_clicks src 1 t n) (gen_group_views src 1 t n)) }

/-- The spec's InvalidParameter error. -/
inductive DataGenError where
  | invalidParameter
  deriving DecidableEq

/-- Modelled from the spec: `generate_n_experiment` validates its
parameters synchronously — baseline CTR and uplift-adjusted treatment CTR
must lie in (0,1) and n, N must be positive — and only then performs the
simulation work; violations fail with InvalidParameter. -/
def ABTestGenerator.generate_n_experiment (g : ABTestGenerator) (src : RandSource)
    (n N : ℤ) : Except DataGenError ExperimentBatch :=
  if 0 < g.base_ctr ∧ g.base_ctr < 1 ∧ 0 < g.treatment_ctr ∧ g.treatment_ctr < 1 ∧
      0 < n ∧ 0 < N then
    .ok (g.build_batch src n.toNat N.toNat)
  else
    .error .invalidParameter

/-- The C6 invariant on a batch: every per-user click count is at most the
paired view count, and all counts are non-negative (they are natural
numbers by construction, so the non-negativity conjuncts record that the
model admits no negative count). -/
def batch_counts_invariant (b : ExperimentBatch) : Prop :=
  List.Forall₂ (List.Forall₂ (· ≤ ·)) b.clicks_0 b.views_0 ∧
  List.Forall₂ (List.Forall₂ (· ≤ ·)) b.clicks_1 b.views_1 ∧
  (∀ l ∈ b.views_0, ∀ v ∈ l, 0 ≤ v) ∧ (∀ l ∈ b.views_1, ∀ v ∈ l, 0 ≤ v) ∧
  (∀ l ∈ b.clicks_0, ∀ c ∈ l, 0 ≤ c) ∧ (∀ l ∈ b.clicks_1, ∀ c ∈ l, 0 ≤ c)

lemma clicks_le_views_group (src : RandSource) (grp t n : ℕ) :
    List.Forall₂ (· ≤ ·) (gen_group_clicks src grp t n) (gen_group_views src grp t n) := by
  unfold gen_group_clicks gen_group_views
  rw [List.forall₂_map_left_iff, List.forall₂_map_right_iff, List.forall₂_same]
  intro u _
  exact le_trans (List.length_filter_le _ _) (by rw [List.length_range])

/-- C6: every Experiment Batch the Data Generator produces satisfies the
count invariant: per-user clicks never exceed the paired views, for both
groups and in every trial, and all counts are non-negative integers. -/
theorem generated_batch_counts_invariant (g : ABTestGenerator) (src : RandSource)
    (n N : ℕ) : batch_counts_invariant (g.build_batch src n N) := by
  unfold batch_counts_invariant ABTestGenerator.build_batch
  refine ⟨?_, ?_, ?_, ?_, ?_, ?_⟩
  · rw [List.forall₂_map_left_iff, List.forall₂_map_right_iff, List.forall₂_same]
    intro t _
    exact clicks_le_views_group src 0 t n
  · rw [List.forall₂_map_left_iff, List.forall₂_map_right_iff, List.forall₂_same]
    intro t _
    exact clicks_le_views_group src 1 t n
  all_goals intro l _ v _; exact Nat.zero_le v

/-- C7: whenever the baseline CTR or the uplift-adjusted treatment CTR is
outside (0,1), or n ≤ 0 or N ≤ 0, the Data Generator fails with
InvalidParameter, and it does so for every random source — the outcome does
not depend on any random draw, so the failure precedes all simulation work
and no partial output is ever produced. -/
theorem generate_rejects_invalid (g : ABTestGenerator) (n N : ℤ)
    (h : ¬(0 < g.base_ctr ∧ g.base_ctr < 1) ∨
         ¬(0 < g.treatment_ctr ∧ g.treatment_ctr < 1) ∨ n ≤ 0 ∨ N ≤ 0) :
    ∀ src : RandSource,
      g.generate_n_experiment src n N = .error .invalidParameter := by
  intro src
  unfold ABTestGenerator.generate_n_experiment
  rw [if_neg]
  rintro ⟨h1, h2, h3, h4, h5, h6⟩
  rcases h with h | h | h | h
  · exact h ⟨h1, h2⟩
  · exact h ⟨h3, h4⟩
  · omega
  · omega

/-- Witness for C7: a generator with baseline CTR 2 (outside (0,1)) is
rejected with InvalidParameter for every random source. -/
theorem generate_rejects_invalid_witness :
    (¬(0 < (⟨2, 0, 1000, 3/5⟩ : ABTestGenerator).base_ctr ∧
        (⟨2, 0, 1000, 3/5⟩ : ABTestGenerator).base_ctr < 1) ∨
     ¬(0 < (⟨2, 0, 1000, 3/5⟩ : ABTestGenerator).treatment_ctr ∧
        (⟨2, 0, 1000, 3/5⟩ : ABTestGenerator).treatment_ctr < 1) ∨
     (10 : ℤ) ≤ 0 ∨ (20 : ℤ) ≤ 0) ∧
    (∀ src : RandSource,
      (⟨2, 0, 1000, 3/5⟩ : ABTestGenerator).generate_n_experiment src 10 20 =
        .error .invalidParameter) :=
  ⟨Or.inl (by norm_num), generate_rejects_invalid _ 10 20 (Or.inl (by norm_num))⟩

/-- The C9 shape contract on a batch: each of the six fields holds exactly
N entries, one per trial index, the raw views and clicks entries being
arrays of length n and the ctrs entries per-trial scalars. -/
def batch_shape (b : ExperimentBatch) (n N : ℕ) : Prop :=
  b.views_0.length = N ∧ b.views_1.length = N ∧
  b.clicks_0.length = N ∧ b.clicks_1.length = N ∧
  b.ctrs_0.length = N ∧ b.ctrs_1.length = N ∧
  (∀ l ∈ b.views_0, l.length = n) ∧ (∀ l ∈ b.views_1, l.length = n) ∧
  (∀ l ∈ b.clicks_0, l.length = n) ∧ (∀ l ∈ b.clicks_1, l.length = n)

/-- C9: for every generator and random source and every valid (n, N),
`generate_n_experiment` succeeds with a structure carrying exactly the
fields views_0, views_1, clicks_0, clicks_1, ctrs_0, ctrs_1 (the whole
`ExperimentBatch` type), each an ordered sequence of N entries indexable by
trial: arrays of length n for raw per-user data, scalars for the aggregate
per-trial CTR. -/
theorem generate_n_experiment_shape (g : ABTestGenerator) (src : RandSource)
    (n N : ℤ)
    (h : 0 < g.base_ctr ∧ g.base_ctr < 1 ∧ 0 < g.treatment_ctr ∧
         g.treatment_ctr < 1 ∧ 0 < n ∧ 0 < N) :
    g.generate_n_experiment src n N = .ok (g.build_batch src n.toNat N.toNat) ∧
    batch_shape (g.build_batch src n.toNat N.toNat) n.toNat N.toNat := by
  constructor
  · unfold ABTestGenerator.generate_n_experiment
    rw [if_pos h]
  · unfold batch_shape ABTestGenerator.build_batch
    refine ⟨by simp, by simp, by simp, by simp, by simp, by simp, ?_, ?_, ?_, ?_⟩
    all_goals
      rw [List.forall_mem_map]
      intro t _
      simp [gen_group_views, gen_group_clicks]

/-- Witness for C9: a valid generator (baseline 1/2, uplift 1/2, so the
treatment CTR 3/4 is in (0,1)) with a concrete random source, n = 3 and
N = 2 yields a batch of the contracted shape. -/
theorem generate_n_experiment_shape_witness :
    (0 < (⟨1/2, 1/2, 1000, 3/5⟩ : ABTestGenerator).base_ctr ∧
     (⟨1/2, 1/2, 1000, 3/5⟩ : ABTestGenerator).base_ctr < 1 ∧
     0 < (⟨1/2, 1/2, 1000, 3/5⟩ : ABTestGenerator).treatment_ctr ∧
     (⟨1/2, 1/2, 1000, 3/5⟩ : ABTestGenerator).treatment_ctr < 1 ∧
     (0 : ℤ) < 3 ∧ (0 : ℤ) < 2) ∧
    ((⟨1/2, 1/2, 1000, 3/5⟩ : ABTestGenerator).generate_n_experiment
        ⟨fun _ _ _ => 1, fun _ _ _ => 1/2, fun _ _ _ _ => 0⟩ 3 2 =
      .ok ((⟨1/2, 1/2, 1000, 3/5⟩ : ABTestGenerator).build_batch
        ⟨fun _ _ _ => 1, fun _ _ _ => 1/2, fun _ _ _ _ => 0⟩ (3 : ℤ).toNat (2 : ℤ).toNat) ∧
     batch_shape ((⟨1/2, 1/2, 1000, 3/5⟩ : ABTestGenerator).build_batch
        ⟨fun _ _ _ => 1, fun _ _ _ => 1/2, fun _ _ _ _ => 0⟩ (3 : ℤ).toNat (2 : ℤ).toNat)
        (3 : ℤ).toNat (2 : ℤ).toNat) :=
  ⟨⟨by norm_num, by norm_num,
    by norm_num [ABTestGenerator.treatment_ctr],
    by norm_num [ABTestGenerator.treatment_ctr], by norm_num, by norm_num⟩,
   generate_n_experiment_shape _ _ 3 2
     ⟨by norm_num, by norm_num,
      by norm_num [ABTestGenerator.treatment_ctr],
      by norm_num [ABTestGenerator.treatment_ctr], by norm_num, by norm_num⟩⟩

end ABTest

namespace ABTest

/-- The spec's DataShapeError: empty input or mismatched array lengths. -/
inductive DataShapeError where
  | emptyInput
  | mismatchedLengths
  deriving DecidableEq

/-- Modelled from the spec: zero variance in a sample — every value equals
the first one, so no difference can be detected within the sample. -/
def zero_variance (xs : List ℚ) : Bool :=
  xs.all (fun x => decide (x = xs.headD 0))

/-- Modelled from the spec: the failure and degenerate-case semantics every
sample-based test of the missing `src/tests.py` battery must implement
(spec section 4.4): DataShapeError on empty or mismatched-length arrays,
the defined deterministic p-value 1 when variance is zero in both groups,
and otherwise the test's own statistic-to-p-value computation `core`
(t statistic, rank statistic or bootstrap resampling — the transcendental
part that is not in src/ and is abstracted as a parameter). -/
def run_stat_test (core : List ℚ → List ℚ → ℚ) (g0 g1 : List ℚ) :
    Except DataShapeError ℚ :=
  if g0.isEmpty || g1.isEmpty then .error .emptyInput
  else if g0.length ≠ g1.length then .error .mismatchedLengths
  else if zero_variance g0 && zero_variance g1 then .ok 1
  else .ok (core g0 g1)

/-- Modelled from the spec: T-test (Clicks) — two-sample t-test on the
per-user click counts, with the battery's common failure semantics. -/
def t_test_clicks (core : List ℚ → List ℚ → ℚ) :
    List ℚ → List ℚ → Except DataShapeError ℚ :=
  run_stat_test core

/-- Modelled from the spec: T-test (CTR) — two-sample t-test on the
per-user CTR values, with the battery's common failure semantics. -/
def t_test_ctr (core : List ℚ → List ℚ → ℚ) :
    List ℚ → List ℚ → Except DataShapeError ℚ :=
  run_stat_test core

/-- Modelled from the spec: Mann-Whitney (Clicks) — rank-based two-sample
test on the per-user click counts, with the battery's common failure
semantics. -/
def mw_test (core : List ℚ → List ℚ → ℚ) :
    List ℚ → List ℚ → Except DataShapeError ℚ :=
  run_stat_test core

/-- Modelled from the spec: Bootstrap (CTR) — resampling-based test on the
per-user CTR values (deterministic given its seeded resampling core), with
the battery's common failure semantics. -/
def bootstrap_test (core : List ℚ → List ℚ → ℚ) :
    List ℚ → List ℚ → Except DataShapeError ℚ :=
  run_stat_test core

/-- Modelled from the spec: Binomial (CTR) — two-proportion test on the
aggregated clicks and views of each group; shape errors as in the rest of
the battery, and the defined p-value 1 when both groups have zero total
views (the all-zero-views degenerate trial). -/
def binom_test (core : ℕ → ℕ → ℕ → ℕ → ℚ)
    (clicks0 views0 clicks1 views1 : List ℕ) : Except DataShapeError ℚ :=
  if clicks0.isEmpty || views0.isEmpty || clicks1.isEmpty || views1.isEmpty then
    .error .emptyInput
  else if clicks0.length ≠ views0.length ∨ clicks1.length ≠ views1.length ∨
      views0.length ≠ views1.length then
    .error .mismatchedLengths
  else if views0.sum = 0 ∧ views1.sum = 0 then .ok 1
  else .ok (core clicks0.sum views0.sum clicks1.sum views1.sum)

/-- The C8 contract for a sample-based test: on a degenerate trial — zero
variance in both groups, in particular the all-zero trial a zero-views
experiment induces — it returns the defined p-value 1 without raising, and
it fails with DataShapeError on empty or mismatched-length inputs. -/
def sample_test_contract (test : List ℚ → List ℚ → Except DataShapeError ℚ) : Prop :=
  (∀ g0 g1 : List ℚ, g0 ≠ [] → g1 ≠ [] → g0.length = g1.length →
     zero_variance g0 = true → zero_variance g1 = true → test g0 g1 = .ok 1) ∧
  (∀ n : ℕ, 0 < n →
     test (List.replicate n 0) (List.replicate n 0) = .ok 1) ∧
  (∀ g1 : List ℚ, test [] g1 = .error .emptyInput) ∧
  (∀ g0 : List ℚ, test g0 [] = .error .emptyInput) ∧
  (∀ g0 g1 : List ℚ, g0 ≠ [] → g1 ≠ [] → g0.length ≠ g1.length →
     test g0 g1 = .error .mismatchedLengths)

/-- The C8 contract for the aggregate binomial test: a trial in which every
user of both groups has zero views (hence zero clicks) yields the defined
p-value 1 without raising; empty or mismatched-length inputs fail with
DataShapeError. -/
def binom_test_contract
    (test : List ℕ → List ℕ → List ℕ → List ℕ → Except DataShapeError ℚ) : Prop :=
  (∀ n : ℕ, 0 < n →
     test (List.replicate n 0) (List.replicate n 0)
       (List.replicate n 0) (List.replicate n 0) = .ok 1) ∧
  (∀ v0 c1 v1 : List ℕ, test [] v0 c1 v1 = .error .emptyInput) ∧
  (∀ c0 v0 c1 v1 : List ℕ, c0 ≠ [] → v0 ≠ [] → c1 ≠ [] → v1 ≠ [] →
     (c0.length ≠ v0.length ∨ c1.length ≠ v1.length ∨ v0.length ≠ v1.length) →
     test c0 v0 c1 v1 = .error .mismatchedLengths)

lemma zero_variance_replicate (n : ℕ) (x : ℚ) :
    zero_variance (List.replicate n x) = true := by
  cases n with
  | zero => rfl
  | succ m =>
    unfold zero_variance
    rw [List.all_eq_true]
    intro a ha
    have hx : a = x := (List.eq_of_mem_replicate ha)
    simp [hx, List.replicate_succ]

lemma run_stat_test_contract (core : List ℚ → List ℚ → ℚ) :
    sample_test_contract (run_stat_test core) := by
  refine ⟨?_, ?_, ?_, ?_, ?_⟩
  · intro g0 g1 h0 h1 hlen hz0 hz1
    unfold run_stat_test
    rw [if_neg, if_neg, if_pos]
    · rw [hz0, hz1]; rfl
    · omega
    · simp [List.isEmpty_iff, h0, h1]
  · intro n hn
    unfold run_stat_test
    rw [if_neg, if_neg, if_pos]
    · rw [zero_variance_replicate]; rfl
    · simp
    · simp only [List.isEmpty_iff, List.replicate_eq_nil_iff, Bool.or_self,
        decide_eq_true_eq]
      omega
  · intro g1
    unfold run_stat_test
    rw [if_pos]
    simp
  · intro g0
    unfold run_stat_test
    rw [if_pos]
    simp
  · intro g0 g1 h0 h1 hne
    unfold run_stat_test
    rw [if_neg, if_pos hne]
    simp [List.isEmpty_iff, h0, h1]

lemma binom_test_edge (core : ℕ → ℕ → ℕ → ℕ → ℚ) :
    binom_test_contract (binom_test core) := by
  refine ⟨?_, ?_, ?_⟩
  · intro n hn
    unfold binom_test
    rw [if_neg, if_neg, if_pos]
    · simp
    · simp
    · simp only [List.isEmpty_iff, List.replicate_eq_nil_iff, Bool.or_self,
        decide_eq_true_eq]
      omega
  · intro v0 c1 v1
    unfold binom_test
    rw [if_pos]
    simp
  · intro c0 v0 c1 v1 h0 h1 h2 h3 hne
    unfold binom_test
    rw [if_neg, if_pos hne]
    simp [List.isEmpty_iff, h0, h1, h2, h3]

/-- C8: every test of the battery — whatever its statistic core — returns
the defined deterministic p-value 1 on a degenerate trial (zero variance in
both groups, in particular a trial where every user of both groups has zero
views) instead of raising, and fails with DataShapeError on empty or
mismatched-length input arrays. -/
theorem battery_edge_cases (c1 c2 c3 c5 : List ℚ → List ℚ → ℚ)
    (c4 : ℕ → ℕ → ℕ → ℕ → ℚ) :
    sample_test_contract (t_test_clicks c1) ∧
    sample_test_contract (t_test_ctr c2) ∧
    sample_test_contract (mw_test c3) ∧
    binom_test_contract (binom_test c4) ∧
    sample_test_contract (bootstrap_test c5) :=
  ⟨run_stat_test_contract c1, run_stat_test_contract c2,
   run_stat_test_contract c3, binom_test_edge c4, run_stat_test_contract c5⟩

end ABTest

namespace ABTest

/-- The errors `plot_views` raises: ValueError for a malformed results
mapping, IndexError for an out-of-bounds trial index. -/
inductive PlotViewsError where
  | valueError
  | indexError
  deriving DecidableEq

/-- Embedding of the validation and data-access path of `plot_views`
(`src/plots.py` lines 46-53).  The results dictionary is modelled as an
association list (the `isinstance(results, dict)` half of the check has no
counterpart in a typed embedding); the code first raises ValueError unless
both keys views_0 and views_1 are present, then raises IndexError unless
the index is within [0, len) of both sequences, and only then reads the two
entries. -/
def plot_views_data (results : List (String × List (List ℚ))) (i : ℤ) :
    Except PlotViewsError (List ℚ × List ℚ) :=
  match results.lookup "views_0", results.lookup "views_1" with
  | some v0, some v1 =>
    if ¬(0 ≤ i ∧ i < (v0.length : ℤ)) ∨ ¬(0 ≤ i ∧ i < (v1.length : ℤ)) then
      .error .indexError
    else
      .ok (v0.getD i.toNat [], v1.getD i.toNat [])
  | _, _ => .error .valueError

/-- The C10 contract: ValueError whenever either key is missing (checked
first), IndexError whenever both keys are present but the index is out of
[0, len) for either sequence, and the data is read only when both checks
pass. -/
def plot_views_contract (results : List (String × List (List ℚ))) (i : ℤ) : Prop :=
  ((results.lookup "views_0" = none ∨ results.lookup "views_1" = none) →
     plot_views_data results i = .error .valueError) ∧
  (∀ v0 v1 : List (List ℚ),
     results.lookup "views_0" = some v0 → results.lookup "views_1" = some v1 →
     ((¬(0 ≤ i ∧ i < (v0.length : ℤ)) ∨ ¬(0 ≤ i ∧ i < (v1.length : ℤ))) →
        plot_views_data results i = .error .indexError) ∧
     ((0 ≤ i ∧ i < (v0.length : ℤ)) → (0 ≤ i ∧ i < (v1.length : ℤ)) →
        plot_views_data results i = .ok (v0.getD i.toNat [], v1.getD i.toNat [])))

/-- C10: `plot_views` validates before doing any work — ValueError when the
results mapping lacks views_0 or views_1, IndexError when the trial index
is not within bounds for both of those sequences, and the data is read only
once both checks pass. -/
theorem plot_views_validates (results : List (String × List (List ℚ))) (i : ℤ) :
    plot_views_contract results i := by
  constructor
  · intro h
    unfold plot_views_data
    rcases h with h | h
    · rw [h]
    · rcases hl : results.lookup "views_0" with _ | v0
      · rfl
      · rw [h]
  · intro v0 v1 h0 h1
    constructor
    · intro hbad
      unfold plot_views_data
      rw [h0, h1]
      simp only [if_pos hbad]
    · intro hin0 hin1
      unfold plot_views_data
      rw [h0, h1]
      show (if ¬(0 ≤ i ∧ i < (v0.length : ℤ)) ∨ ¬(0 ≤ i ∧ i < (v1.length : ℤ)) then
          Except.error PlotViewsError.indexError
        else Except.ok (v0.getD i.toNat [], v1.getD i.toNat [])) = _
      rw [if_neg (by push_neg; exact ⟨hin0, hin1⟩)]

end ABTest
